import Mathlib

/-!
Verification of the self-healing element resolution engine of the
osgt-playwright-automation repository, shallowly embedded from
src/core/utils/ElementLocator.ts, src/core/utils/CustomErrors.ts and the
SelectorStrategies interface of core/types/global.types.

The browser session (Playwright page plus expect assertions) is an external
collaborator; it is modelled as a record of boolean oracles saying, for a
given constructed locator query and a timeout in milliseconds, whether the
corresponding wait succeeds within that timeout, and how many elements a
query counts. The logger is modelled by accumulating the emitted entries.
-/

namespace OSGT

/-- JS truthiness of an optional string field: undefined and the empty
string are falsy, every other string is truthy. This models the
`!!strategies.field` conditions in ElementLocator.locate. -/
def truthy : Option String → Bool
  | none => false
  | some s => !s.isEmpty

/-- JS template-string interpolation of a possibly-undefined string:
undefined prints as the literal text "undefined". -/
def strJS : Option String → String
  | none => "undefined"
  | some s => s

/-- The SelectorStrategies interface (core/types/global.types). Fields are
optional strings because call sites construct partial objects; an absent
field is `none` (undefined in JS). -/
structure SelectorStrategies where
  id : Option String
  dataTestId : Option String
  xpath : Option String
  css : Option String
  text : Option String
  role : Option String
deriving DecidableEq, Repr

/-- A locator query as constructed by ElementLocator: either
`page.locator(sel)` (used for the data-testid attribute selector, the
`#id` selector, the raw css string and the raw xpath string),
`page.getByRole(role)` or `page.getByText(text)`. The argument is kept as
an `Option String` where the source passes the field through unchanged,
so that passing undefined is representable. -/
inductive LocQuery where
  | pageLocator (sel : Option String)
  | byRole (role : Option String)
  | byText (text : Option String)
deriving DecidableEq, Repr

/-- One element of a `locator.nth(i)` result list, as produced by
ElementLocator.locateAll. -/
structure NthLocator where
  base : LocQuery
  index : Nat
deriving DecidableEq, Repr

/-- The browser session capability consumed by the resolver. Each field
abstracts one awaited Playwright operation: whether the given assertion on
the query completes without throwing within the given timeout, and
`countOf` returns `some n` when `locator.count()` returns `n` and `none`
when constructing or counting the locator throws. -/
structure Session where
  visibleWithin : LocQuery → Nat → Bool
  hiddenWithin : LocQuery → Nat → Bool
  enabledWithin : LocQuery → Nat → Bool
  disabledWithin : LocQuery → Nat → Bool
  attachedWithin : LocQuery → Nat → Bool
  countOf : LocQuery → Option Nat

/-- Log severities used by the resolver (LoggingUtils levels that
ElementLocator actually emits). -/
inductive LogLevel where
  | debug
  | warn
  | error
deriving DecidableEq, Repr

/-- The structured context blob attached to each log call, one constructor
per call-site shape in ElementLocator. -/
inductive LogContext where
  | empty
  | withStrategies (strategies : SelectorStrategies)
  | fallback (strategies : SelectorStrategies) (usedStrategy : String) (attemptNumber : Nat)
  | attemptFailure (strategyIndex : Nat) (totalStrategies : Nat)
  | notFound (strategies : SelectorStrategies) (timeout : Nat) (attemptCount : Nat)
deriving DecidableEq, Repr

/-- One emitted log entry: level, message, structured context. -/
structure LogEntry where
  level : LogLevel
  message : String
  context : LogContext
deriving DecidableEq, Repr

/-- Error codes from CustomErrors.ts. -/
inductive ErrorCode where
  | ELEMENT_NOT_FOUND
  | PAGE_LOAD_TIMEOUT
  | API_REQUEST_FAILED
  | DATABASE_CONNECTION_FAILED
  | AUTHENTICATION_FAILED
  | PERFORMANCE_THRESHOLD_EXCEEDED
  | TEST_DATA_GENERATION_FAILED
  | CONFIGURATION_ERROR
  | NETWORK_ERROR
  | FILE_OPERATION_FAILED
  | VALIDATION_ERROR
  | TIMEOUT_ERROR
  | ENCRYPTION_ERROR
  | DATABASE_OPERATION_FAILED
deriving DecidableEq, Repr

/-- The details payload attached to a thrown CustomError. The only details
object ElementLocator ever attaches is the object literal
containing exactly the strategy set and the timeout, thrown on exhaustion. -/
inductive ErrorDetails where
  | empty
  | locateFailure (strategies : SelectorStrategies) (timeout : Nat)
deriving DecidableEq, Repr

/-- The numeric components of a details payload, used to state what
numbers the payload carries. The locate failure object literal has exactly
one numeric field, the timeout. -/
def detailsNumbers : ErrorDetails → List Nat
  | .empty => []
  | .locateFailure _ timeout => [timeout]

/-- A CustomError (CustomErrors.ts): runtime class name, message, code and
details. The timestamp and stack fields are real-time and
environment-dependent and are not modelled. -/
structure CustomError where
  name : String
  message : String
  code : ErrorCode
  details : ErrorDetails
deriving DecidableEq, Repr

/-- Constructor of ElementNotFoundError: prefixes the message and fixes
the code to ELEMENT_NOT_FOUND. -/
def ElementNotFoundError (selector : String) (details : ErrorDetails) : CustomError :=
  { name := "ElementNotFoundError"
    message := "Element not found: " ++ selector
    code := .ELEMENT_NOT_FOUND
    details := details }

/-- Constructor of ConfigurationError: prefixes the message and fixes the
code to CONFIGURATION_ERROR. Defined here because the specification names
it; ElementLocator itself never constructs it. -/
def ConfigurationError (reason : String) (details : ErrorDetails) : CustomError :=
  { name := "ConfigurationError"
    message := "Configuration error: " ++ reason
    code := .CONFIGURATION_ERROR
    details := details }

/-- An error escaping a resolver operation: either a thrown CustomError,
or a Playwright assertion or wait that timed out (the error thrown by
`await expect(locator).toBeX(\x7btimeout\x7d)` or `locator.waitFor`),
which is a plain Error, not a CustomError subclass. -/
inductive LocErr where
  | custom (e : CustomError)
  | expectTimeout (assertion : String) (timeout : Nat)
deriving DecidableEq, Repr

/-- Decides whether an escaped error is the not-found-class failure, the
class that locate raises on exhaustion. -/
def isNotFoundFailure : LocErr → Bool
  | .custom e => e.code == .ELEMENT_NOT_FOUND
  | .expectTimeout _ _ => false

/-- JSON.stringify of a strategies object: undefined fields are omitted,
present fields appear as quoted key/value pairs in declaration order. -/
def jsonField (key : String) (value : Option String) : List String :=
  match value with
  | none => []
  | some s => ["\"" ++ key ++ "\":\"" ++ s ++ "\""]

/-- JSON.stringify of the whole SelectorStrategies object. -/
def stringifyStrategies (s : SelectorStrategies) : String :=
  "\x7b" ++
    String.intercalate ","
      (jsonField "id" s.id ++ jsonField "dataTestId" s.dataTestId ++
       jsonField "xpath" s.xpath ++ jsonField "css" s.css ++
       jsonField "text" s.text ++ jsonField "role" s.role) ++
  "\x7d"

/-- One entry of the `attempts` array built at the top of
ElementLocator.locate: strategy name, the locator the thunk would build,
and the evaluated truthiness condition. -/
structure CandidateAttempt where
  name : String
  query : LocQuery
  condition : Bool
deriving DecidableEq, Repr

/-- The six candidate attempts of ElementLocator.locate, in source order:
data-testid, id, css, role, text, xpath. -/
def candidateAttempts (s : SelectorStrategies) : List CandidateAttempt :=
  [ { name := "data-testid"
      query := .pageLocator (some ("[data-testid=\"" ++ strJS s.dataTestId ++ "\"]"))
      condition := truthy s.dataTestId },
    { name := "id"
      query := .pageLocator (some ("#" ++ strJS s.id))
      condition := truthy s.id },
    { name := "css"
      query := .pageLocator s.css
      condition := truthy s.css },
    { name := "role"
      query := .byRole s.role
      condition := truthy s.role },
    { name := "text"
      query := .byText s.text
      condition := truthy s.text },
    { name := "xpath"
      query := .pageLocator s.xpath
      condition := truthy s.xpath } ]

/-- The filtered candidate list `validAttempts` of ElementLocator.locate. -/
def validAttempts (s : SelectorStrategies) : List CandidateAttempt :=
  (candidateAttempts s).filter (fun a => a.condition)

/-- Result of one locate call: the returned locator or the escaped error,
the emitted log entries in order, and the visibility checks issued to the
session (query and timeout), in order. -/
structure LocateResult where
  outcome : Except LocErr LocQuery
  logs : List LogEntry
  calls : List (LocQuery × Nat)

/-- The `for (const [index, attempt] of validAttempts.entries())` loop of
ElementLocator.locate: returns the first successfully visible query if
any, together with the logs and the session calls of the traversed
attempts. `tpa` is the per-attempt timeout and `total` the length of the
full filtered list (used in the failure log context). -/
def locateGo (session : Session) (strategies : SelectorStrategies)
    (tpa total : Nat) (index : Nat) :
    List CandidateAttempt → Option LocQuery × List LogEntry × List (LocQuery × Nat)
  | [] => (none, [], [])
  | a :: rest =>
    let tryingLog : LogEntry :=
      { level := .debug, message := "Trying strategy: " ++ a.name
        context := .withStrategies strategies }
    if session.visibleWithin a.query tpa then
      let successLog : LogEntry :=
        if index > 0 then
          { level := .warn
            message := "Element found using fallback strategy: " ++ a.name
            context := .fallback strategies a.name (index + 1) }
        else
          { level := .debug
            message := "Element found using primary strategy: " ++ a.name
            context := .empty }
      (some a.query, [tryingLog, successLog], [(a.query, tpa)])
    else
      let failLog : LogEntry :=
        { level := .debug, message := "Strategy " ++ a.name ++ " failed"
          context := .attemptFailure (index + 1) total }
      let rec_ := locateGo session strategies tpa total (index + 1) rest
      (rec_.1, tryingLog :: failLog :: rec_.2.1, (a.query, tpa) :: rec_.2.2)

/-- ElementLocator.locate: filter to the truthy candidates, divide the
timeout budget evenly (Math.floor), iterate in priority order returning
the first visible locator, and throw ElementNotFoundError with the
strategies and the timeout when every candidate fails. The default
timeout at the TS call boundary is 30000. -/
def ElementLocator.locate (session : Session) (strategies : SelectorStrategies)
    (timeout : Nat) : LocateResult :=
  let va := validAttempts strategies
  let timeoutPerAttempt := timeout / va.length
  match locateGo session strategies timeoutPerAttempt va.length 0 va with
  | (some q, logs, calls) => { outcome := .ok q, logs := logs, calls := calls }
  | (none, logs, calls) =>
    let errorMessage := "Element not found using any strategy: " ++ stringifyStrategies strategies
    { outcome := .error (.custom (ElementNotFoundError errorMessage
        (.locateFailure strategies timeout)))
      logs := logs ++
        [{ level := .error, message := errorMessage
           context := .notFound strategies timeout va.length }]
      calls := calls }

/-- The element states accepted by ElementLocator.waitForState. -/
inductive ElemState where
  | visible
  | hidden
  | stable
  | enabled
  | disabled
deriving DecidableEq, Repr

/-- The string interpolated for a state in the log messages. -/
def stateName : ElemState → String
  | .visible => "visible"
  | .hidden => "hidden"
  | .stable => "stable"
  | .enabled => "enabled"
  | .disabled => "disabled"

/-- Whether the session satisfies the state assertion of waitForState on
the resolved locator within the timeout: toBeVisible, toBeHidden,
toBeEnabled, toBeDisabled, or waitFor attached for the stable case. -/
def stateCheck (session : Session) (locator : LocQuery) (timeout : Nat) :
    ElemState → Bool
  | .visible => session.visibleWithin locator timeout
  | .hidden => session.hiddenWithin locator timeout
  | .enabled => session.enabledWithin locator timeout
  | .disabled => session.disabledWithin locator timeout
  | .stable => session.attachedWithin locator timeout

/-- The error thrown when the state assertion of waitForState times out: a
Playwright assertion or wait error, not a CustomError. -/
def stateFailure : ElemState → Nat → LocErr
  | .visible, t => .expectTimeout "toBeVisible" t
  | .hidden, t => .expectTimeout "toBeHidden" t
  | .enabled, t => .expectTimeout "toBeEnabled" t
  | .disabled, t => .expectTimeout "toBeDisabled" t
  | .stable, t => .expectTimeout "waitFor attached" t

/-- Result of a waitForState call: the returned locator or the escaped
error, and the emitted log entries. -/
structure StateResult where
  outcome : Except LocErr LocQuery
  logs : List LogEntry

/-- ElementLocator.waitForState: resolve first via locate with the same
timeout as budget, then assert the requested state on the resolved
locator bounded by the full timeout. A locate failure propagates
unchanged; a state assertion failure escapes as the assertion timeout
error. The stable case additionally awaits a fixed 1000 ms settle delay,
which always succeeds and is not further modelled. The default state at
the TS call boundary is visible and the default timeout 30000. -/
def ElementLocator.waitForState (session : Session) (strategies : SelectorStrategies)
    (state : ElemState) (timeout : Nat) : StateResult :=
  let lr := ElementLocator.locate session strategies timeout
  match lr.outcome with
  | .error e => { outcome := .error e, logs := lr.logs }
  | .ok locator =>
    let waitingLog : LogEntry :=
      { level := .debug, message := "Waiting for element state: " ++ stateName state
        context := .withStrategies strategies }
    if stateCheck session locator timeout state then
      { outcome := .ok locator
        logs := lr.logs ++ [waitingLog,
          { level := .debug
            message := "Element reached desired state: " ++ stateName state
            context := .empty }] }
    else
      { outcome := .error (stateFailure state timeout)
        logs := lr.logs ++ [waitingLog] }

/-- The six locator thunks built by ElementLocator.locateAll, in source
order. Unlike locate, there is no truthiness condition: every thunk
participates, and an undefined dataTestId or id is interpolated into the
selector text literally. -/
def locateAllQueries (s : SelectorStrategies) : List LocQuery :=
  [ .pageLocator (some ("[data-testid=\"" ++ strJS s.dataTestId ++ "\"]")),
    .pageLocator (some ("#" ++ strJS s.id)),
    .pageLocator s.css,
    .byRole s.role,
    .byText s.text,
    .pageLocator s.xpath ]

/-- The loop of ElementLocator.locateAll: count each query in order; a
thrown count (countOf = none) or a zero count falls through to the next
query; the first positive count stops the loop. Returns the winning query
with its count if any, and the count calls issued. -/
def locateAllGo (session : Session) :
    List LocQuery → Option (LocQuery × Nat) × List LocQuery
  | [] => (none, [])
  | q :: rest =>
    match session.countOf q with
    | some (n + 1) => (some (q, n + 1), [q])
    | _ =>
      let rec_ := locateAllGo session rest
      (rec_.1, q :: rec_.2)

/-- Result of a locateAll call: the element list (never an error), the
emitted log entries, and the count queries issued to the session. -/
structure LocateAllResult where
  elements : List NthLocator
  logs : List LogEntry
  calls : List LocQuery
deriving DecidableEq, Repr

/-- ElementLocator.locateAll: try all six queries in order and, at the
first one whose count is positive, return the nth locators 0..count-1 of
that one query; if every query yields zero (or throws), return the empty
list. The timeout parameter is accepted but never read by the source
body. The default timeout at the TS call boundary is 30000. -/
def ElementLocator.locateAll (session : Session) (strategies : SelectorStrategies)
    (timeout : Nat) : LocateAllResult :=
  let _ := timeout
  match locateAllGo session (locateAllQueries strategies) with
  | (some (q, n), calls) =>
    { elements := (List.range n).map (fun i => { base := q, index := i })
      logs := [{ level := .debug, message := "Found " ++ toString n ++ " elements"
                 context := .withStrategies strategies }]
      calls := calls }
  | (none, calls) =>
    { elements := []
      logs := [{ level := .warn, message := "No elements found with any strategy"
                 context := .withStrategies strategies }]
      calls := calls }

/-- ElementLocator.exists: locate inside try/catch, converting success to
true and any escaped failure to false. The default timeout at the TS call
boundary is 5000. -/
def ElementLocator.existsCheck (session : Session) (strategies : SelectorStrategies)
    (timeout : Nat) : Bool :=
  match (ElementLocator.locate session strategies timeout).outcome with
  | .ok _ => true
  | .error _ => false

/-- ElementLocator.getCount: the length of locateAll with timeout 5000,
converting any escaped failure to 0 (locateAll never escapes in this
model, matching the source where its loop swallows all per-query
failures). -/
def ElementLocator.getCount (session : Session) (strategies : SelectorStrategies) : Nat :=
  (ElementLocator.locateAll session strategies 5000).elements.length

/-- A strategy set with every field populated. -/
def sFull : SelectorStrategies :=
  { id := some "login-id", dataTestId := some "login-button", xpath := some "//button"
    css := some ".login", text := some "Login", role := some "button" }

/-- A strategy set with every field present but empty, the all-fields-empty
shape of the zero-candidate scenario. -/
def sEmpty : SelectorStrategies :=
  { id := some "", dataTestId := some "", xpath := some ""
    css := some "", text := some "", role := some "" }

/-- A strategy set populating only css and xpath. -/
def sCssXpath : SelectorStrategies :=
  { id := none, dataTestId := none, xpath := some "//missing"
    css := some ".missing", text := none, role := none }

/-- A session on which every assertion succeeds immediately except
hidden, and every count is zero. -/
def allVisibleSession : Session :=
  { visibleWithin := fun _ _ => true
    hiddenWithin := fun _ _ => false
    enabledWithin := fun _ _ => true
    disabledWithin := fun _ _ => false
    attachedWithin := fun _ _ => true
    countOf := fun _ => some 0 }

/-- A session on which every assertion fails and every count is zero: no
element ever becomes visible, hidden, enabled, disabled or attached. -/
def noSession : Session :=
  { visibleWithin := fun _ _ => false
    hiddenWithin := fun _ _ => false
    enabledWithin := fun _ _ => false
    disabledWithin := fun _ _ => false
    attachedWithin := fun _ _ => false
    countOf := fun _ => some 0 }

/-- A session on which only the xpath query of sCssXpath ever becomes
visible. -/
def xpathOnlySession : Session :=
  { visibleWithin := fun q _ => q == .pageLocator (some "//missing")
    hiddenWithin := fun _ _ => false
    enabledWithin := fun _ _ => false
    disabledWithin := fun _ _ => false
    attachedWithin := fun _ _ => false
    countOf := fun _ => some 0 }

/-! Helper lemmas characterizing the resolution loop. -/

/-- Recognizes the per-attempt diagnostic entry emitted at the top of each
loop iteration of locate: within the logs of one locate call, exactly the
trying entries carry the bare strategies context. -/
def isTryingLog (e : LogEntry) : Bool :=
  match e.context with
  | .withStrategies _ => true
  | _ => false

/-- The first component of the loop result is the query of the first
candidate whose visibility check succeeds. -/
theorem locateGo_found (session : Session) (s : SelectorStrategies) (tpa total : Nat) :
    ∀ (l : List CandidateAttempt) (i : Nat),
      (locateGo session s tpa total i l).1 =
        (l.find? (fun a => session.visibleWithin a.query tpa)).map (fun a => a.query) := by
  intro l
  induction l with
  | nil => intro i; rfl
  | cons a rest ih =>
    intro i
    cases h : session.visibleWithin a.query tpa with
    | true => simp [locateGo, List.find?, h]
    | false => simp [locateGo, List.find?, h, ih (i + 1)]

/-- The session calls issued by the loop are exactly the leading failing
candidates followed by the first succeeding one (if any), each bounded by
the per-attempt timeout. -/
theorem locateGo_calls (session : Session) (s : SelectorStrategies) (tpa total : Nat) :
    ∀ (l : List CandidateAttempt) (i : Nat),
      (locateGo session s tpa total i l).2.2 =
        (l.takeWhile (fun a => !session.visibleWithin a.query tpa) ++
          (l.dropWhile (fun a => !session.visibleWithin a.query tpa)).take 1).map
          (fun a => (a.query, tpa)) := by
  intro l
  induction l with
  | nil => intro i; rfl
  | cons a rest ih =>
    intro i
    cases h : session.visibleWithin a.query tpa with
    | true => simp [locateGo, List.takeWhile, List.dropWhile, h]
    | false => simp [locateGo, List.takeWhile, List.dropWhile, h, ih (i + 1)]

/-- The loop emits exactly one trying entry per session call. -/
theorem locateGo_trying (session : Session) (s : SelectorStrategies) (tpa total : Nat) :
    ∀ (l : List CandidateAttempt) (i : Nat),
      ((locateGo session s tpa total i l).2.1.filter isTryingLog).length =
        (locateGo session s tpa total i l).2.2.length := by
  intro l
  induction l with
  | nil => intro i; rfl
  | cons a rest ih =>
    intro i
    cases h : session.visibleWithin a.query tpa with
    | true =>
      by_cases hi : i > 0 <;>
        simp [locateGo, h, hi, isTryingLog, List.filter]
    | false =>
      simpa [locateGo, h, isTryingLog, List.filter] using ih (i + 1)

/-- Restatement of locate as a match on the found query, convenient for
case analysis. -/
theorem locate_result (session : Session) (s : SelectorStrategies) (T : Nat) :
    ElementLocator.locate session s T =
      (let va := validAttempts s
       let tpa := T / va.length
       let r := locateGo session s tpa va.length 0 va
       match r.1 with
       | some q => { outcome := .ok q, logs := r.2.1, calls := r.2.2 }
       | none =>
         let errorMessage := "Element not found using any strategy: " ++ stringifyStrategies s
         { outcome := .error (.custom (ElementNotFoundError errorMessage
             (.locateFailure s T)))
           logs := r.2.1 ++
             [{ level := .error, message := errorMessage
                context := .notFound s T va.length }]
           calls := r.2.2 }) := by
  show ElementLocator.locate session s T = _
  rcases hr : locateGo session s (T / (validAttempts s).length) (validAttempts s).length 0
      (validAttempts s) with ⟨oq, lgs, cls⟩
  cases oq <;> simp [ElementLocator.locate, hr]

/-- The outcome of locate in terms of the first visible candidate. -/
theorem locate_outcome (session : Session) (s : SelectorStrategies) (T : Nat) :
    (ElementLocator.locate session s T).outcome =
      match ((validAttempts s).find?
          (fun a => session.visibleWithin a.query (T / (validAttempts s).length))) with
      | some a => .ok a.query
      | none => .error (.custom (ElementNotFoundError
          ("Element not found using any strategy: " ++ stringifyStrategies s)
          (.locateFailure s T))) := by
  rw [locate_result]
  have hf := locateGo_found session s (T / (validAttempts s).length) (validAttempts s).length
    (validAttempts s) 0
  rcases hr : locateGo session s (T / (validAttempts s).length) (validAttempts s).length 0
      (validAttempts s) with ⟨oq, lgs, cls⟩
  rw [hr] at hf
  cases hfind : (validAttempts s).find?
      (fun a => session.visibleWithin a.query (T / (validAttempts s).length)) <;>
    simp [hfind] at hf <;> simp [hr, hf]

/-- The session calls of locate in closed form: the leading failing
candidates, then the first succeeding one if any, each paired with the
per-attempt share. -/
theorem locate_calls (session : Session) (s : SelectorStrategies) (T : Nat) :
    (ElementLocator.locate session s T).calls =
      ((validAttempts s).takeWhile
          (fun a => !session.visibleWithin a.query (T / (validAttempts s).length)) ++
        ((validAttempts s).dropWhile
          (fun a => !session.visibleWithin a.query (T / (validAttempts s).length))).take 1).map
        (fun a => (a.query, T / (validAttempts s).length)) := by
  rw [locate_result]
  have hcl := locateGo_calls session s (T / (validAttempts s).length) (validAttempts s).length
    (validAttempts s) 0
  rcases hr : locateGo session s (T / (validAttempts s).length) (validAttempts s).length 0
      (validAttempts s) with ⟨oq, lgs, cls⟩
  rw [hr] at hcl
  cases oq <;> simpa [hr] using hcl

/-- Within the logs of one locate call, the trying entries are in
bijection with the issued session calls. -/
theorem locate_trying_count (session : Session) (s : SelectorStrategies) (T : Nat) :
    ((ElementLocator.locate session s T).logs.filter isTryingLog).length =
      (ElementLocator.locate session s T).calls.length := by
  rw [locate_result]
  have ht := locateGo_trying session s (T / (validAttempts s).length) (validAttempts s).length
    (validAttempts s) 0
  rcases hr : locateGo session s (T / (validAttempts s).length) (validAttempts s).length 0
      (validAttempts s) with ⟨oq, lgs, cls⟩
  rw [hr] at ht
  cases oq <;> simpa [hr, List.filter_append, isTryingLog] using ht

/-- C1: for a strategy set with all six fields populated and every
candidate individually resolvable within the per-attempt share, locate
returns the handle built by the data-testid strategy, the first candidate
in the fixed priority order data-testid, id, css, role, text, xpath. -/
theorem locate_priority_first_success (session : Session) (s : SelectorStrategies) (T : Nat)
    (h1 : truthy s.dataTestId = true) (h2 : truthy s.id = true)
    (h3 : truthy s.css = true) (h4 : truthy s.role = true)
    (h5 : truthy s.text = true) (h6 : truthy s.xpath = true)
    (hres : ∀ a ∈ validAttempts s,
      session.visibleWithin a.query (T / (validAttempts s).length) = true) :
    (ElementLocator.locate session s T).outcome =
      .ok (.pageLocator (some ("[data-testid=\"" ++ strJS s.dataTestId ++ "\"]"))) := by
  have hva : validAttempts s = candidateAttempts s := by
    simp [validAttempts, candidateAttempts, List.filter, h1, h2, h3, h4, h5, h6]
  have hvis := hres
    { name := "data-testid"
      query := .pageLocator (some ("[data-testid=\"" ++ strJS s.dataTestId ++ "\"]"))
      condition := truthy s.dataTestId }
    (by rw [hva]; simp [candidateAttempts])
  rw [hva] at hvis
  simp only [candidateAttempts, List.length_cons, List.length_nil] at hvis
  rw [locate_outcome, hva]
  simp [candidateAttempts, List.find?, hvis]

/-- C1 witness: with every field of sFull populated and a session where
every candidate is visible at once, locate returns the data-testid
handle. -/
theorem locate_priority_first_success_witness :
    (ElementLocator.locate allVisibleSession sFull 30000).outcome =
      .ok (.pageLocator (some "[data-testid=\"login-button\"]")) :=
  locate_priority_first_success allVisibleSession sFull 30000 rfl rfl rfl rfl rfl rfl
    (fun _ _ => rfl)

/-- C2 counterexample: on the all-fields-empty strategy set locate makes
no session calls, but the failure it raises is the ElementNotFoundError
class (code ELEMENT_NOT_FOUND), not a ConfigurationError-class failure:
its code and its runtime class name differ from those of
ConfigurationError. -/
theorem locate_zero_candidates_cx :
    (ElementLocator.locate noSession sEmpty 5000).calls = [] ∧
    (ElementLocator.locate noSession sEmpty 5000).outcome =
      .error (.custom (ElementNotFoundError
        ("Element not found using any strategy: " ++ stringifyStrategies sEmpty)
        (.locateFailure sEmpty 5000))) ∧
    (ElementNotFoundError
        ("Element not found using any strategy: " ++ stringifyStrategies sEmpty)
        (.locateFailure sEmpty 5000)).code = .ELEMENT_NOT_FOUND ∧
    (ElementNotFoundError
        ("Element not found using any strategy: " ++ stringifyStrategies sEmpty)
        (.locateFailure sEmpty 5000)).code ≠
      (ConfigurationError "zero candidates" .empty).code ∧
    (ElementNotFoundError
        ("Element not found using any strategy: " ++ stringifyStrategies sEmpty)
        (.locateFailure sEmpty 5000)).name ≠
      (ConfigurationError "zero candidates" .empty).name :=
  ⟨rfl, rfl, rfl, by decide, by decide⟩

/-- C2 (amended): for every strategy set whose filtered candidate list is
empty, locate fails immediately, making no session calls and emitting
only the single error log entry with attempt count 0; the raised failure
is the ElementNotFoundError-class not-found failure, not a
ConfigurationError-class one. -/
theorem locate_zero_candidates (session : Session) (s : SelectorStrategies) (T : Nat)
    (h : validAttempts s = []) :
    (ElementLocator.locate session s T).outcome =
      .error (.custom (ElementNotFoundError
        ("Element not found using any strategy: " ++ stringifyStrategies s)
        (.locateFailure s T))) ∧
    (ElementLocator.locate session s T).calls = [] ∧
    (ElementLocator.locate session s T).logs =
      [{ level := .error
         message := "Element not found using any strategy: " ++ stringifyStrategies s
         context := .notFound s T 0 }] := by
  rw [locate_result, h]
  simp [locateGo, h]

/-- C2 witness: the amended statement evaluated on the all-fields-empty
set. -/
theorem locate_zero_candidates_witness :
    (ElementLocator.locate noSession sEmpty 5000).outcome =
      .error (.custom (ElementNotFoundError
        ("Element not found using any strategy: " ++ stringifyStrategies sEmpty)
        (.locateFailure sEmpty 5000))) ∧
    (ElementLocator.locate noSession sEmpty 5000).calls = [] ∧
    (ElementLocator.locate noSession sEmpty 5000).logs =
      [{ level := .error
         message := "Element not found using any strategy: " ++ stringifyStrategies sEmpty
         context := .notFound sEmpty 5000 0 }] :=
  locate_zero_candidates noSession sEmpty 5000 rfl

/-- C3: with N populated candidates, every visibility check issued by
locate is bounded by exactly the floor share T / N, and the sequence of
issued checks is the leading failing candidates followed by the first
succeeding one: a failed attempt moves on to the next candidate instead
of consuming the remaining budget. -/
theorem locate_budget_division (session : Session) (s : SelectorStrategies) (T : Nat)
    (_hN : 1 ≤ (validAttempts s).length) :
    (∀ c ∈ (ElementLocator.locate session s T).calls,
        c.2 = T / (validAttempts s).length) ∧
    ((ElementLocator.locate session s T).calls =
      ((validAttempts s).takeWhile
          (fun a => !session.visibleWithin a.query (T / (validAttempts s).length)) ++
        ((validAttempts s).dropWhile
          (fun a => !session.visibleWithin a.query (T / (validAttempts s).length))).take 1).map
        (fun a => (a.query, T / (validAttempts s).length))) := by
  refine ⟨?_, locate_calls session s T⟩
  intro c hc
  rw [locate_calls] at hc
  rcases List.mem_map.mp hc with ⟨a, _, ha⟩
  rw [← ha]

/-- C3 witness: totalTimeoutBudget 3000 over the two candidates of
sCssXpath, none visible: both checks are issued at 1500 each. -/
theorem locate_budget_division_witness :
    (1 ≤ (validAttempts sCssXpath).length ∧
      ∀ c ∈ (ElementLocator.locate noSession sCssXpath 3000).calls, c.2 = 1500) :=
  ⟨by decide, fun c hc => by
    have h := (locate_budget_division noSession sCssXpath 3000 (by decide)).1 c hc
    simpa using h⟩

/-- C4 counterexample: on a two-candidate exhausting run with budget
3000, the thrown failure is ElementNotFoundError whose details payload is
exactly the strategy set and the timeout; its only numeric component is
the timeout 3000, not the attempt count 2, which appears only in the
error-level log entry. -/
theorem locate_exhaustion_payload_cx :
    (ElementLocator.locate noSession sCssXpath 3000).outcome =
      .error (.custom (ElementNotFoundError
        ("Element not found using any strategy: " ++ stringifyStrategies sCssXpath)
        (.locateFailure sCssXpath 3000))) ∧
    (validAttempts sCssXpath).length = 2 ∧
    detailsNumbers (ErrorDetails.locateFailure sCssXpath 3000) = [3000] ∧
    2 ∉ detailsNumbers (ErrorDetails.locateFailure sCssXpath 3000) ∧
    { level := LogLevel.error
      message := "Element not found using any strategy: " ++ stringifyStrategies sCssXpath
      context := LogContext.notFound sCssXpath 3000 2 } ∈
      (ElementLocator.locate noSession sCssXpath 3000).logs :=
  ⟨rfl, rfl, rfl, by decide, by decide⟩

/-- C4 (amended): when every populated candidate fails its attempt,
locate raises the ElementNotFoundError-class failure; its carried payload
contains the full strategy set and the total timeout budget, while the
number of attempts made is recorded in the accompanying error-level log
entry rather than in the payload; the failure is surfaced without
internal retry. -/
theorem locate_exhaustion_error (session : Session) (s : SelectorStrategies) (T : Nat)
    (_hne : validAttempts s ≠ [])
    (hfail : ∀ a ∈ validAttempts s,
      session.visibleWithin a.query (T / (validAttempts s).length) = false) :
    (ElementLocator.locate session s T).outcome =
      .error (.custom (ElementNotFoundError
        ("Element not found using any strategy: " ++ stringifyStrategies s)
        (.locateFailure s T))) ∧
    { level := LogLevel.error
      message := "Element not found using any strategy: " ++ stringifyStrategies s
      context := LogContext.notFound s T (validAttempts s).length } ∈
      (ElementLocator.locate session s T).logs := by
  have hnone : (validAttempts s).find?
      (fun a => session.visibleWithin a.query (T / (validAttempts s).length)) = none := by
    rw [List.find?_eq_none]
    intro a ha
    simp [hfail a ha]
  constructor
  · rw [locate_outcome, hnone]
  · rw [locate_result]
    have hf := locateGo_found session s (T / (validAttempts s).length) (validAttempts s).length
      (validAttempts s) 0
    rcases hr : locateGo session s (T / (validAttempts s).length) (validAttempts s).length 0
        (validAttempts s) with ⟨oq, lgs, cls⟩
    rw [hr, hnone] at hf
    simp only [Option.map_none] at hf
    subst hf
    simp [hr]

/-- C4 witness: the amended statement evaluated on the two-candidate
exhausting run. -/
theorem locate_exhaustion_error_witness :
    (ElementLocator.locate noSession sCssXpath 3000).outcome =
      .error (.custom (ElementNotFoundError
        ("Element not found using any strategy: " ++ stringifyStrategies sCssXpath)
        (.locateFailure sCssXpath 3000))) ∧
    { level := LogLevel.error
      message := "Element not found using any strategy: " ++ stringifyStrategies sCssXpath
      context := LogContext.notFound sCssXpath 3000 2 } ∈
      (ElementLocator.locate noSession sCssXpath 3000).logs := by
  have h := locate_exhaustion_error noSession sCssXpath 3000 (by decide) (fun _ _ => rfl)
  simpa using h

/-- C5 counterexample: on sFull with a session where every query is at
once visible but never hidden, waitForState hidden raises the Playwright
state-assertion timeout error; that error is not the not-found class,
while the failure locate raises on exhaustion is. -/
theorem waitForState_not_notfound_cx :
    (ElementLocator.waitForState allVisibleSession sFull .hidden 1000).outcome =
      .error (.expectTimeout "toBeHidden" 1000) ∧
    isNotFoundFailure (.expectTimeout "toBeHidden" 1000) = false ∧
    isNotFoundFailure (.custom (ElementNotFoundError
      ("Element not found using any strategy: " ++ stringifyStrategies sFull)
      (.locateFailure sFull 1000))) = true :=
  ⟨rfl, rfl, rfl⟩

/-- C5 (amended): for the states visible, hidden, enabled and disabled,
waitForState resolves first via locate with the same timeout as budget,
propagating unchanged the not-found failure when resolution exhausts;
once resolved it asserts the requested state predicate on the handle
bounded by the timeout, and when the predicate does not hold within the
timeout it raises a state-assertion timeout failure that is not the
not-found class. -/
theorem waitForState_behavior (session : Session) (s : SelectorStrategies)
    (state : ElemState) (T : Nat)
    (hstate : state = .visible ∨ state = .hidden ∨ state = .enabled ∨ state = .disabled) :
    (∀ e, (ElementLocator.locate session s T).outcome = .error e →
      (ElementLocator.waitForState session s state T).outcome = .error e) ∧
    (∀ q, (ElementLocator.locate session s T).outcome = .ok q →
      (stateCheck session q T state = true →
        (ElementLocator.waitForState session s state T).outcome = .ok q) ∧
      (stateCheck session q T state = false →
        (ElementLocator.waitForState session s state T).outcome =
          .error (stateFailure state T) ∧
        isNotFoundFailure (stateFailure state T) = false)) := by
  refine ⟨?_, ?_⟩
  · intro e he
    simp [ElementLocator.waitForState, he]
  · intro q hq
    refine ⟨?_, ?_⟩
    · intro hcheck
      simp [ElementLocator.waitForState, hq, hcheck]
    · intro hcheck
      refine ⟨by simp [ElementLocator.waitForState, hq, hcheck], ?_⟩
      rcases hstate with h | h | h | h <;> subst h <;> rfl

/-- C5 witness: the amended statement evaluated on the
visible-but-never-hidden session. -/
theorem waitForState_behavior_witness :
    (ElementLocator.waitForState allVisibleSession sFull .hidden 1000).outcome =
      .error (stateFailure .hidden 1000) ∧
    isNotFoundFailure (stateFailure .hidden 1000) = false :=
  ((waitForState_behavior allVisibleSession sFull .hidden 1000
      (Or.inr (Or.inl rfl))).2
    (.pageLocator (some "[data-testid=\"login-button\"]")) rfl).2 rfl

/-- The winning query and count of the locateAll loop is the first query
whose count is positive. -/
theorem locateAllGo_fst (session : Session) :
    ∀ l : List LocQuery,
      (locateAllGo session l).1 =
        (l.find? (fun q => 0 < (session.countOf q).getD 0)).map
          (fun q => (q, (session.countOf q).getD 0)) := by
  intro l
  induction l with
  | nil => rfl
  | cons q rest ih =>
    cases hc : session.countOf q with
    | none => simp [locateAllGo, hc, List.find?, ih]
    | some n =>
      cases n with
      | zero => simp [locateAllGo, hc, List.find?, ih]
      | succ m => simp [locateAllGo, hc, List.find?]

/-- The element list of locateAll in closed form: all nth locators of the
first query with positive count, or the empty list. -/
theorem locateAll_elements (session : Session) (s : SelectorStrategies) (T : Nat) :
    (ElementLocator.locateAll session s T).elements =
      (match (locateAllQueries s).find? (fun q => 0 < (session.countOf q).getD 0) with
       | some q =>
         (List.range ((session.countOf q).getD 0)).map
           (fun i => { base := q, index := i : NthLocator })
       | none => []) := by
  have hf := locateAllGo_fst session (locateAllQueries s)
  rcases hr : locateAllGo session (locateAllQueries s) with ⟨og, cls⟩
  rw [hr] at hf
  cases hfind : (locateAllQueries s).find? (fun q => 0 < (session.countOf q).getD 0) with
  | none =>
    rw [hfind] at hf
    simp only [Option.map_none] at hf
    subst hf
    simp [ElementLocator.locateAll, hr, hfind]
  | some q =>
    rw [hfind] at hf
    simp only [Option.map_some] at hf
    subst hf
    simp [ElementLocator.locateAll, hr, hfind]

/-- C6: locateAll tries its queries in the same fixed priority order as
the candidate list of locate and, at the first query whose match count is
positive, returns exactly the nth locators of that one query, merging
nothing from any other query; when every query yields zero matches (or
throws on counting) it returns the empty list, and its return type
carries no error at all. -/
theorem locateAll_first_nonzero (session : Session) (s : SelectorStrategies) (T : Nat) :
    locateAllQueries s = (candidateAttempts s).map (fun a => a.query) ∧
    (ElementLocator.locateAll session s T).elements =
      (match (locateAllQueries s).find? (fun q => 0 < (session.countOf q).getD 0) with
       | some q =>
         (List.range ((session.countOf q).getD 0)).map
           (fun i => { base := q, index := i : NthLocator })
       | none => []) :=
  ⟨rfl, locateAll_elements session s T⟩

/-- C7: existsCheck converts a locate success into true and a locate
failure of any kind into false, and getCount returns the length of the
locateAll result, in particular 0 when nothing is found; both return
plain values and raise nothing. -/
theorem existsCheck_getCount_never_raise (session : Session) (s : SelectorStrategies)
    (T : Nat) :
    (∀ q, (ElementLocator.locate session s T).outcome = .ok q →
      ElementLocator.existsCheck session s T = true) ∧
    (∀ e, (ElementLocator.locate session s T).outcome = .error e →
      ElementLocator.existsCheck session s T = false) ∧
    ElementLocator.getCount session s =
      (ElementLocator.locateAll session s 5000).elements.length ∧
    ((ElementLocator.locateAll session s 5000).elements = [] →
      ElementLocator.getCount session s = 0) := by
  refine ⟨?_, ?_, rfl, ?_⟩
  · intro q hq
    simp [ElementLocator.existsCheck, hq]
  · intro e he
    simp [ElementLocator.existsCheck, he]
  · intro h
    simp [ElementLocator.getCount, h]

/-- C7 witness: on a session where nothing resolves, existsCheck is false
and getCount is 0. -/
theorem existsCheck_getCount_never_raise_witness :
    ElementLocator.existsCheck noSession sFull 5000 = false ∧
    ElementLocator.getCount noSession sFull = 0 :=
  ⟨(existsCheck_getCount_never_raise noSession sFull 5000).2.1 _ rfl,
   (existsCheck_getCount_never_raise noSession sFull 5000).2.2.2 rfl⟩

/-- When the candidates before position pre.length all fail their
visibility check and the candidate a there succeeds, the loop returns the
query of a, and whenever that position is not the first of the whole
traversal it logs the warning entry naming the winning strategy and its
one-based attempt ordinal. -/
theorem locateGo_fallback (session : Session) (s : SelectorStrategies) (tpa total : Nat) :
    ∀ (pre : List CandidateAttempt) (a : CandidateAttempt) (rest : List CandidateAttempt)
      (i : Nat),
      (∀ b ∈ pre, session.visibleWithin b.query tpa = false) →
      session.visibleWithin a.query tpa = true →
      (locateGo session s tpa total i (pre ++ a :: rest)).1 = some a.query ∧
      (0 < i + pre.length →
        { level := .warn
          message := "Element found using fallback strategy: " ++ a.name
          context := .fallback s a.name (i + pre.length + 1) } ∈
          (locateGo session s tpa total i (pre ++ a :: rest)).2.1) := by
  intro pre
  induction pre with
  | nil =>
    intro a rest i hpre hvis
    constructor
    · simp [locateGo, hvis]
    · intro hi
      have hipos : i > 0 := by simpa using hi
      simp [locateGo, hvis, hipos]
  | cons b pre ih =>
    intro a rest i hpre hvis
    have hb : session.visibleWithin b.query tpa = false := hpre b (by simp)
    have hpre2 : ∀ c ∈ pre, session.visibleWithin c.query tpa = false :=
      fun c hc => hpre c (by simp [hc])
    have hih := ih a rest (i + 1) hpre2 hvis
    have hmem := hih.2 (by omega)
    constructor
    · simp [locateGo, hb, hih.1]
    · intro _
      have harith : i + (b :: pre).length + 1 = i + 1 + pre.length + 1 := by
        simp only [List.length_cons]
        omega
      rw [harith]
      simp only [List.cons_append, locateGo, hb, Bool.false_eq_true, if_false]
      exact List.mem_cons_of_mem _ (List.mem_cons_of_mem _ hmem)

/-- C8: during locate every candidate attempt emits one trying
diagnostic entry (one per issued session call); a success by the primary
candidate (the first of the filtered list) emits only debug-level
entries; and whenever a fallback candidate wins, that is, the filtered
list splits as pre plus the winner with pre nonempty, every candidate of
pre failing its check and the winner passing its own, locate succeeds
with the winner and emits the warning-level entry recording that
strategy and its attempt ordinal pre.length + 1. -/
theorem locate_logging (session : Session) (s : SelectorStrategies) (T : Nat) :
    ((ElementLocator.locate session s T).logs.filter isTryingLog).length =
      (ElementLocator.locate session s T).calls.length ∧
    (∀ a rest, validAttempts s = a :: rest →
      session.visibleWithin a.query (T / (validAttempts s).length) = true →
      (ElementLocator.locate session s T).logs =
        [{ level := .debug, message := "Trying strategy: " ++ a.name
           context := .withStrategies s },
         { level := .debug, message := "Element found using primary strategy: " ++ a.name
           context := .empty }]) ∧
    (∀ pre a rest, validAttempts s = pre ++ a :: rest → pre ≠ [] →
      (∀ b ∈ pre, session.visibleWithin b.query (T / (validAttempts s).length) = false) →
      session.visibleWithin a.query (T / (validAttempts s).length) = true →
      (ElementLocator.locate session s T).outcome = .ok a.query ∧
      { level := .warn, message := "Element found using fallback strategy: " ++ a.name
        context := .fallback s a.name (pre.length + 1) } ∈
        (ElementLocator.locate session s T).logs) := by
  refine ⟨locate_trying_count session s T, ?_, ?_⟩
  · intro a rest hva hvis
    rw [hva] at hvis
    simp only [List.length_cons] at hvis
    rw [locate_result, hva]
    simp [locateGo, hvis]
  · intro pre a rest hva hpre0 hprefail hvis
    have hgo := locateGo_fallback session s (T / (validAttempts s).length)
      (validAttempts s).length pre a rest 0 hprefail hvis
    have hpos : 0 < 0 + pre.length := by
      rcases pre with _ | ⟨b, pre⟩
      · exact absurd rfl hpre0
      · simp
    have hwarn := hgo.2 hpos
    have hoq := hgo.1
    rw [locate_result]
    rw [hva] at hoq hwarn ⊢
    rcases hr : locateGo session s (T / (pre ++ a :: rest).length) (pre ++ a :: rest).length 0
        (pre ++ a :: rest) with ⟨oq, lgs, cls⟩
    rw [hr] at hoq hwarn
    subst hoq
    constructor
    · simp only [hr]
    · simp only [hr]
      simpa using hwarn

/-- C8 witness: only css and xpath populated and only the xpath query
visible splits the filtered list as the failing css candidate plus the
winning xpath candidate, yielding the xpath handle and the ordinal-2
warning entry. -/
theorem locate_logging_witness :
    (ElementLocator.locate xpathOnlySession sCssXpath 3000).outcome =
      .ok (.pageLocator sCssXpath.xpath) ∧
    { level := .warn, message := "Element found using fallback strategy: xpath"
      context := .fallback sCssXpath "xpath" 2 } ∈
      (ElementLocator.locate xpathOnlySession sCssXpath 3000).logs := by
  have h := (locate_logging xpathOnlySession sCssXpath 3000).2.2
    [{ name := "css", query := .pageLocator sCssXpath.css
       condition := truthy sCssXpath.css }]
    { name := "xpath", query := .pageLocator sCssXpath.xpath
      condition := truthy sCssXpath.xpath }
    [] rfl (List.cons_ne_nil _ _) (by decide) rfl
  simpa using h

/-- C9: a locate success always comes from a populated candidate whose
visibility check succeeded within the per-attempt share; consequently on
a session where no query ever becomes visible within any timeout,
existsCheck returns false and waitForState hidden cannot succeed, the
initial resolution itself asserting visibility. -/
theorem locate_requires_visibility (session : Session) (s : SelectorStrategies) (T : Nat) :
    (∀ q, (ElementLocator.locate session s T).outcome = .ok q →
      ∃ a ∈ validAttempts s, a.query = q ∧
        session.visibleWithin a.query (T / (validAttempts s).length) = true) ∧
    ((∀ q t, session.visibleWithin q t = false) →
      ElementLocator.existsCheck session s T = false ∧
      (ElementLocator.waitForState session s .hidden T).outcome.isOk = false) := by
  constructor
  · intro q hq
    rw [locate_outcome] at hq
    cases hfind : (validAttempts s).find?
        (fun a => session.visibleWithin a.query (T / (validAttempts s).length)) with
    | none =>
      rw [hfind] at hq
      cases hq
    | some a =>
      rw [hfind] at hq
      have hmem := List.mem_of_find?_eq_some hfind
      have hp := List.find?_some hfind
      simp only [Except.ok.injEq] at hq
      exact ⟨a, hmem, hq, hp⟩
  · intro hnever
    have hnone : (validAttempts s).find?
        (fun a => session.visibleWithin a.query (T / (validAttempts s).length)) = none := by
      rw [List.find?_eq_none]
      intro a _
      simp [hnever]
    have hout := locate_outcome session s T
    rw [hnone] at hout
    constructor
    · simp [ElementLocator.existsCheck, hout]
    · simp [ElementLocator.waitForState, hout, Except.isOk, Except.toBool]

/-- C9 witness: on the never-visible session, existsCheck is false and
waitForState hidden does not succeed. -/
theorem locate_requires_visibility_witness :
    ElementLocator.existsCheck noSession sFull 5000 = false ∧
    (ElementLocator.waitForState noSession sFull .hidden 5000).outcome.isOk = false :=
  (locate_requires_visibility noSession sFull 5000).2 (fun _ _ => rfl)

/-- When every count is zero, the locateAll loop traverses and counts the
whole query list. -/
theorem locateAllGo_calls_all (session : Session)
    (hzero : ∀ q, (session.countOf q).getD 0 = 0) :
    ∀ l : List LocQuery, (locateAllGo session l).2 = l := by
  intro l
  induction l with
  | nil => rfl
  | cons q rest ih =>
    cases hc : session.countOf q with
    | none => simp [locateAllGo, hc, ih]
    | some n =>
      cases n with
      | zero => simp [locateAllGo, hc, ih]
      | succ m =>
        exfalso
        have h := hzero q
        rw [hc] at h
        simp at h

/-- C10: locateAll does not restrict its candidate list to populated
fields: its query list always has all six entries, an absent dataTestId
yields the literal selector text containing undefined, under all-zero
counts all six queries are counted in order even for unpopulated fields,
and the timeout parameter is never read, so the whole result is
independent of it. -/
theorem locateAll_unfiltered (session : Session) (s : SelectorStrategies) (t1 t2 : Nat) :
    ElementLocator.locateAll session s t1 = ElementLocator.locateAll session s t2 ∧
    (locateAllQueries s).length = 6 ∧
    (s.dataTestId = none →
      (locateAllQueries s).head? =
        some (.pageLocator (some "[data-testid=\"undefined\"]"))) ∧
    ((∀ q, (session.countOf q).getD 0 = 0) →
      (ElementLocator.locateAll session s t1).calls = locateAllQueries s) := by
  refine ⟨rfl, rfl, ?_, ?_⟩
  · intro h
    simp [locateAllQueries, h, strJS]
  · intro hzero
    have h := locateAllGo_calls_all session hzero (locateAllQueries s)
    rcases hr : locateAllGo session (locateAllQueries s) with ⟨og, cls⟩
    rw [hr] at h
    simp only at h
    cases og with
    | none =>
      simp only [ElementLocator.locateAll, hr]
      exact h
    | some p =>
      rcases p with ⟨q, n⟩
      simp only [ElementLocator.locateAll, hr]
      exact h

/-- C10 witness: with dataTestId absent the first query is the literal
undefined selector, and under all-zero counts all six queries are
counted. -/
theorem locateAll_unfiltered_witness :
    (locateAllQueries sCssXpath).head? =
      some (.pageLocator (some "[data-testid=\"undefined\"]")) ∧
    (ElementLocator.locateAll noSession sCssXpath 30000).calls =
      locateAllQueries sCssXpath :=
  ⟨(locateAll_unfiltered noSession sCssXpath 30000 30000).2.2.1 rfl,
   (locateAll_unfiltered noSession sCssXpath 30000 30000).2.2.2 (fun _ => rfl)⟩

end OSGT
